import Mathlib

/-!
Shallow embedding of the iNav multirotor flight-control core:
the inner rate/attitude PID (`src/unnamed/part_001`, `src/src/main/flight/pid.h`)
and the outer multirotor navigation controller (`src/unnamed/part_000`).

Conventions of the embedding:
* C `float` values are embedded as exact rationals (`ℚ`); float literals such as
  `0.33f` become the corresponding decimal rationals.
* C integer types (`int16_t`, `uint16_t`, ...) are embedded as `ℤ` or `ℕ`;
  the arithmetic in the embedded expressions stays inside the ranges where the
  C computation does not overflow, except for `uint32` time arithmetic which is
  embedded with an explicit wrap (`u32sub`).
* A C `float → intN` conversion truncates toward zero; it is embedded as
  `ratTrunc`.
* C integer division truncates toward zero; it is embedded as `Int.tdiv`.
* Helpers of this repository that are not among the provided sources
  (`navPidApply2`, `navPidReset`, `filterApplyPt1`, `filterResetPt1`,
  `updateAltitudeTargetFromClimbRate` and the numeric values of a few
  constants) are modelled from the spec; each carries a doc comment saying so.
-/

/-- C helper `constrain` from common/maths.c: integer saturating clamp,
written exactly as the C source (low wins over high when low > high). -/
def constrain (amt low high : ℤ) : ℤ :=
  if amt < low then low else if amt > high then high else amt

/-- C helper `constrainf` from common/maths.c: float saturating clamp. -/
def constrainf (amt low high : ℚ) : ℚ :=
  if amt < low then low else if amt > high then high else amt

/-- Truncation toward zero of a rational, the effect of a C `float → int`
conversion on a value that is representable in the target type. -/
def ratTrunc (q : ℚ) : ℤ :=
  if 0 ≤ q then ⌊q⌋ else ⌈q⌉

/-- C macro `US2S`: microseconds to seconds. -/
def us2s (x : ℕ) : ℚ := (x : ℚ) / 1000000

/-- C macro `HZ2US`: period in microseconds of a rate in Hz (integer division). -/
def hz2us (hz : ℕ) : ℕ := 1000000 / hz

/-- Difference of two `uint32` microsecond timestamps with C unsigned wrap. -/
def u32sub (a b : ℕ) : ℕ := (a % 4294967296 + 4294967296 - b % 4294967296) % 4294967296

/-- Rational stand-in for pi used by the PT1 filter model. Pi is irrational, so
the exact C value cannot be embedded in `ℚ`; no theorem below depends on the
numeric value of the filter output. -/
def ratPi : ℚ := 314159265 / 100000000

/-- Modelled from the spec: `filterApplyPt1` (common/filter.c, not among the
provided sources) is a first-order low-pass; the new state, which is also the
returned output, moves toward the input by the fraction dT/(RC+dT) with
RC = 1/(2 pi fCut). -/
def filterApplyPt1 (input state fCut dt : ℚ) : ℚ :=
  state + dt / (1 / (2 * ratPi * fCut) + dt) * (input - state)

/-- Modelled from the spec: `filterResetPt1` (common/filter.c, not among the
provided sources) sets the filter state to the given value. -/
def filterResetPt1 (value : ℚ) : ℚ := value

/-- Constant `PID_MAX_OUTPUT` from flight/pid.h. -/
def PID_MAX_OUTPUT : ℚ := 1000

/-- Constant `GYRO_SATURATION_LIMIT` from flight/pid.h. -/
def GYRO_SATURATION_LIMIT : ℚ := 1800

/-- Index of `PIDMAG` in the `pidIndex_e` enum of flight/pid.h. -/
def PIDMAG : ℕ := 8

/-- Index of `PIDLEVEL` in the `pidIndex_e` enum of flight/pid.h. -/
def PIDLEVEL : ℕ := 7

/-- The slice of `pidProfile_t` (flight/pid.h) consumed by the embedded code.
`P8`, `I8`, `D8` are the uint8 gain banks indexed by `pidIndex_e`. -/
structure PidProfile where
  P8 : ℕ → ℕ
  I8 : ℕ → ℕ
  D8 : ℕ → ℕ
  dterm_lpf_hz : ℕ
  yaw_lpf_hz : ℕ
  yaw_p_limit : ℕ
  mag_hold_rate_limit : ℚ

/-- The slice of `controlRateConfig_t` consumed by `updatePIDCoefficients`. -/
structure ControlRateConfig where
  dynThrPID : ℕ
  tpa_breakpoint : ℕ

/-- The slice of `rxConfig_t` consumed by `updatePIDCoefficients`. -/
structure RxConfig where
  mincheck : ℤ
  maxcheck : ℤ

/-- The five-sample FIR history buffer `dTermBuf` of `pidState_t`;
`b0` is the most recent sample. -/
structure DTermBuf where
  b0 : ℚ
  b1 : ℚ
  b2 : ℚ
  b3 : ℚ
  b4 : ℚ

/-- Modelled from the spec: `filterUpdateFIR` (common/filter.c, not among the
provided sources) shifts the history buffer and stores the new sample first. -/
def filterUpdateFIR (buf : DTermBuf) (newSample : ℚ) : DTermBuf :=
  ⟨newSample, buf.b0, buf.b1, buf.b2, buf.b3⟩

/-- Modelled from the spec: `filterApplyFIR` (common/filter.c, not among the
provided sources) returns the dot product of the history buffer with the
coefficient vector {5, 2, -8, -2, 3}, times the common multiplier. -/
def filterApplyFIR (buf : DTermBuf) (commonMultiplier : ℚ) : ℚ :=
  (5 * buf.b0 + 2 * buf.b1 + (-8) * buf.b2 + (-2) * buf.b3 + 3 * buf.b4) * commonMultiplier

/-- Per-axis controller state `pidState_t` from part_001. -/
structure PidState where
  kP : ℚ
  kI : ℚ
  kD : ℚ
  kT : ℚ
  gyroRate : ℚ
  rateTarget : ℚ
  dTermBuf : DTermBuf
  errorGyroIf : ℚ
  errorGyroIfLimit : ℚ
  axisLockAccum : ℚ
  angleFilterState : ℚ
  ptermLpfState : ℚ
  deltaLpfState : ℚ

/-- Ambient state read by `pidApplyRateController`: the externs
`motorCount`, `motorLimitReached`, `dT` and the `PID_ATTENUATE` /
`ANTI_WINDUP` state flags. -/
structure RateCtx where
  motorCount : ℕ
  motorLimitReached : Bool
  statePidAttenuate : Bool
  stateAntiWindup : Bool
  dT : ℚ

/-- The P term of `pidApplyRateController` after the yaw P-limit clamp and the
optional yaw P-term PT1 low-pass. The yaw clamp passes the float through the
integer `constrain`, truncating it, exactly as the C call does. -/
def pidRatePTerm (pp : PidProfile) (ctx : RateCtx) (axis : Fin 3) (ps : PidState) : ℚ :=
  let rateError := ps.rateTarget - ps.gyroRate
  let p0 := rateError * ps.kP
  let p1 := if axis.val = 2 ∧ (4 ≤ ctx.motorCount ∧ pp.yaw_p_limit ≠ 0) then
      ((constrain (ratTrunc p0) (-(pp.yaw_p_limit : ℤ)) (pp.yaw_p_limit : ℤ) : ℤ) : ℚ)
    else p0
  if axis.val = 2 ∧ pp.yaw_lpf_hz ≠ 0 then
    filterApplyPt1 p1 ps.ptermLpfState (pp.yaw_lpf_hz : ℚ) ctx.dT
  else p1

/-- The FIR history buffer after `pidApplyRateController`; it is only updated
when `D8[axis]` is nonzero. -/
def pidRateDTermBuf (pp : PidProfile) (axis : Fin 3) (ps : PidState) : DTermBuf :=
  if pp.D8 axis.val = 0 then ps.dTermBuf else filterUpdateFIR ps.dTermBuf ps.gyroRate

/-- The D term of `pidApplyRateController`: zero when `D8[axis]` is zero, else
the Holoborodko FIR derivative scaled by -kD/(8 dT), optionally PT1 filtered. -/
def pidRateDTerm (pp : PidProfile) (ctx : RateCtx) (axis : Fin 3) (ps : PidState) : ℚ :=
  if pp.D8 axis.val = 0 then 0
  else
    let d0 := filterApplyFIR (filterUpdateFIR ps.dTermBuf ps.gyroRate) (-ps.kD / (8 * ctx.dT))
    if pp.dterm_lpf_hz ≠ 0 then filterApplyPt1 d0 ps.deltaLpfState (pp.dterm_lpf_hz : ℚ) ctx.dT
    else d0

/-- The preliminary (unclamped) output of `pidApplyRateController`:
(P + D) * attenuation + I, with attenuation 0.33 when `PID_ATTENUATE` is set. -/
def pidRateNewOutput (pp : PidProfile) (ctx : RateCtx) (axis : Fin 3) (ps : PidState) : ℚ :=
  (pidRatePTerm pp ctx axis ps + pidRateDTerm pp ctx axis ps) *
    (if ctx.statePidAttenuate then 33 / 100 else 1) + ps.errorGyroIf

/-- The integrator value of `pidApplyRateController` right after the
back-calculation update and before the conditional anti-windup clamp:
I + rateError kI dT + (uLim - u) kT dT, where u is the unclamped output and
uLim its clamp to +-PID_MAX_OUTPUT. -/
def pidRateIntegratorNext (pp : PidProfile) (ctx : RateCtx) (axis : Fin 3) (ps : PidState) : ℚ :=
  ps.errorGyroIf + (ps.rateTarget - ps.gyroRate) * ps.kI * ctx.dT +
    (constrainf (pidRateNewOutput pp ctx axis ps) (-PID_MAX_OUTPUT) PID_MAX_OUTPUT -
      pidRateNewOutput pp ctx axis ps) * ps.kT * ctx.dT

/-- `pidApplyRateController` from part_001: returns the updated per-axis state
and the `int16_t` value stored into `axisPID[axis]`. -/
def pidApplyRateController (pp : PidProfile) (ctx : RateCtx) (axis : Fin 3) (ps : PidState) :
    PidState × ℤ :=
  let newOutput := pidRateNewOutput pp ctx axis ps
  let newOutputLimited := constrainf newOutput (-PID_MAX_OUTPUT) PID_MAX_OUTPUT
  let i1 := pidRateIntegratorNext pp ctx axis ps
  let i2 := if ctx.stateAntiWindup || ctx.motorLimitReached then
      constrainf i1 (-ps.errorGyroIfLimit) ps.errorGyroIfLimit
    else i1
  let lim2 := if ctx.stateAntiWindup || ctx.motorLimitReached then ps.errorGyroIfLimit else |i1|
  ({ ps with
      errorGyroIf := i2
      errorGyroIfLimit := lim2
      ptermLpfState :=
        if axis.val = 2 ∧ pp.yaw_lpf_hz ≠ 0 then pidRatePTerm pp ctx axis ps else ps.ptermLpfState
      dTermBuf := pidRateDTermBuf pp axis ps
      deltaLpfState :=
        if pp.D8 axis.val ≠ 0 ∧ pp.dterm_lpf_hz ≠ 0 then pidRateDTerm pp ctx axis ps
        else ps.deltaLpfState },
    ratTrunc newOutputLimited)

/-- The TPA (thrust PID attenuation) factor computed by
`updatePIDCoefficients` in part_001. `rcThrottle` is `rcData[THROTTLE]`.
The middle branch divides in C `int` arithmetic, truncating. -/
def tpaFactorCalc (crc : ControlRateConfig) (rcThrottle : ℤ) : ℚ :=
  if crc.dynThrPID = 0 ∨ rcThrottle < (crc.tpa_breakpoint : ℤ) then 1
  else if rcThrottle < 2000 then
    ((100 - Int.tdiv ((crc.dynThrPID : ℤ) * (rcThrottle - (crc.tpa_breakpoint : ℤ)))
        (2000 - (crc.tpa_breakpoint : ℤ)) : ℤ) : ℚ) / 100
  else ((100 - (crc.dynThrPID : ℤ) : ℤ) : ℚ) / 100

/-- The throttle-based kD attenuation factor of `updatePIDCoefficients`
(KD_ATTENUATION_BREAK = 0.25). -/
def kdAttenuationCalc (rx : RxConfig) (rcThrottle : ℤ) : ℚ :=
  let relThrottle :=
    constrainf (((rcThrottle : ℚ) - (rx.mincheck : ℚ)) / ((rx.maxcheck : ℚ) - (rx.mincheck : ℚ))) 0 1
  if relThrottle < 1 / 4 then constrainf (relThrottle / (1 / 4) + 1 / 2) 0 1 else 1

/-- The gain quadruple computed per axis by `updatePIDCoefficients`. -/
structure PidCoeffs where
  kP : ℚ
  kI : ℚ
  kD : ℚ
  kT : ℚ

/-- The body of the per-axis loop of `updatePIDCoefficients` in part_001:
base gains P8/40, I8/10, D8/4000; TPA applied to kP and kD on ROLL and PITCH
(axes 0 and 1), kD additionally scaled by the kD attenuation factor; back
calculation gain kT = 2/(kP/kI + kD/kP) guarded by P8 and I8 being nonzero. -/
def updatePIDCoefficientsAxis (pp : PidProfile) (crc : ControlRateConfig) (rx : RxConfig)
    (rcThrottle : ℤ) (axis : Fin 3) : PidCoeffs :=
  let tpaFactor := tpaFactorCalc crc rcThrottle
  let kdAttenuationFactor := kdAttenuationCalc rx rcThrottle
  let kP0 : ℚ := (pp.P8 axis.val : ℚ) / 40
  let kI : ℚ := (pp.I8 axis.val : ℚ) / 10
  let kD0 : ℚ := (pp.D8 axis.val : ℚ) / 4000
  let kP := if axis.val ≠ 2 then kP0 * tpaFactor else kP0
  let kD := if axis.val ≠ 2 then kD0 * (tpaFactor * kdAttenuationFactor) else kD0
  let kT := if pp.P8 axis.val ≠ 0 ∧ pp.I8 axis.val ≠ 0 then 2 / (kP / kI + kD / kP) else 0
  ⟨kP, kI, kD, kT⟩

/-- C macro `DECIDEGREES_TO_DEGREES` (common/maths.h): integer division by 10. -/
def DECIDEGREES_TO_DEGREES (x : ℤ) : ℤ := Int.tdiv x 10

/-- The error-wrapping step of `pidMagHold` in part_001, as a function of the
raw error `DECIDEGREES_TO_DEGREES(attitude.values.yaw) - magHoldTargetHeading`:
add 360 once if the error is at most -180, then subtract 360 once if the
result is at least +180. -/
def magHoldErrorWrap (rawError : ℤ) : ℤ :=
  let e1 := if rawError ≤ -180 then rawError + 360 else rawError
  if e1 ≥ 180 then e1 - 360 else e1

/-- The internal heading error of `pidMagHold`: yaw (deci-degrees) converted to
degrees, minus the mag-hold target heading, wrapped. -/
def pidMagHoldError (yawDeciDegrees magHoldTargetHeading : ℤ) : ℤ :=
  magHoldErrorWrap (DECIDEGREES_TO_DEGREES yawDeciDegrees - magHoldTargetHeading)

/-- `pidMagHold` from part_001: wrapped error times P8[PIDMAG]/30 in integer
arithmetic, clamped to the mag-hold rate limit, PT1 filtered at 2 Hz.
Returns the new yaw rate target and the new filter state (equal). -/
def pidMagHold (pp : PidProfile) (yawDeciDegrees magHoldTargetHeading : ℤ)
    (magHoldRateFilterState dT : ℚ) : ℚ :=
  let error := pidMagHoldError yawDeciDegrees magHoldTargetHeading
  let rate0 : ℚ := ((Int.tdiv (error * (pp.P8 PIDMAG : ℤ)) 30 : ℤ) : ℚ)
  let rate1 := constrainf rate0 (-pp.mag_hold_rate_limit) pp.mag_hold_rate_limit
  filterApplyPt1 rate1 magHoldRateFilterState 2 dT

/-- `pidRcCommandToAngle` from part_001: stick units to deci-degrees. -/
def pidRcCommandToAngle (stick : ℤ) : ℚ := (stick : ℚ) * 2

/-- `pidAngleToRcCommand` from part_001: deci-degrees to stick units; the
float quotient is truncated by the `int16_t` return conversion. -/
def pidAngleToRcCommand (angleDeciDegrees : ℚ) : ℤ := ratTrunc (angleDeciDegrees / 2)

/-- Constant `MIN_POSITION_UPDATE_RATE_HZ`. Modelled from the spec: the header
defining it (navigation_rewrite_private.h) is not among the provided sources;
the spec names it as the stale-data threshold. The value 5 Hz is the one this
firmware family uses; no theorem below depends on the numeric value. -/
def MIN_POSITION_UPDATE_RATE_HZ : ℕ := 5

/-- Constant `NAV_THROTTLE_CUTOFF_FREQENCY_HZ`. Modelled from the spec: the
defining header is not among the provided sources; only the throttle PT1
low-pass uses it and no theorem depends on its value. -/
def NAV_THROTTLE_CUTOFF_FREQENCY_HZ : ℚ := 4

/-- Dynamic state of one outer-loop PID object (`pidController_t` of the
navigation code, not among the provided sources); gains plus integrator and
last input, as the spec describes the outer-loop PID objects. -/
structure NavPid where
  kP : ℚ
  kI : ℚ
  kD : ℚ
  kT : ℚ
  integrator : ℚ
  lastInput : ℚ

/-- Modelled from the spec: `navPidReset` (navigation_rewrite.c, not among the
provided sources) clears the PID object's dynamic state. -/
def navPidReset (pid : NavPid) : NavPid :=
  { pid with integrator := 0, lastInput := 0 }

/-- Modelled from the spec: `navPidApply2` (navigation_rewrite.c, not among
the provided sources) is a standard PID on the setpoint/measurement error with
the output clamped to [outMin, outMax] and back-calculation anti-windup
I += err kI dt + (outClamped - out) kT dt, as section 4.4 and the design notes
of the spec describe. Returns the clamped output and the updated PID state. -/
def navPidApply2 (setpoint measurement dt : ℚ) (pid : NavPid) (outMin outMax : ℚ) :
    ℚ × NavPid :=
  let error := setpoint - measurement
  let newProportional := error * pid.kP
  let newDerivative := if dt = 0 then 0 else pid.kD * ((pid.lastInput - measurement) / dt)
  let outVal := newProportional + pid.integrator + newDerivative
  let outValConstrained := constrainf outVal outMin outMax
  (outValConstrained,
    { pid with
        integrator := pid.integrator + error * pid.kI * dt + (outValConstrained - outVal) * pid.kT * dt
        lastInput := measurement })

/-- The slice of `escAndServoConfig_t` consumed by the navigation code. -/
structure EscAndServoConfig where
  minthrottle : ℤ
  maxthrottle : ℤ

/-- The slice of `navConfig_t` consumed by the embedded navigation code. -/
structure NavConfig where
  mc_hover_throttle : ℤ
  mc_min_fly_throttle : ℤ
  emerg_descent_rate : ℚ

/-- The slice of `failsafeConfig_t` consumed by the emergency controller. -/
structure FailsafeConfig where
  failsafe_throttle : ℤ

/-- Configuration environment of the navigation controllers; `failsafe` is the
result of `getActiveFailsafeConfig()` (`none` embeds a NULL return). -/
structure NavEnv where
  esc : EscAndServoConfig
  nav : NavConfig
  failsafe : Option FailsafeConfig

/-- The state touched by the embedded altitude and emergency controllers of
part_000: the relevant `posControl` fields, the file-static variables and the
function-static timestamps, plus the published `rcCommand` entries. -/
structure AltState where
  desiredPosZ : ℚ
  desiredVelZ : ℚ
  desiredSurface : ℚ
  actualPosZ : ℚ
  actualVelZ : ℚ
  actualSurface : ℚ
  isTerrainFollowEnabled : Bool
  hasValidSurfaceSensor : Bool
  hasValidAltitudeSensor : Bool
  verticalPositionDataNew : Bool
  verticalPositionDataConsumed : Bool
  pidsVelZ : NavPid
  pidsSurface : NavPid
  posZkP : ℚ
  rcAdjustmentThrottle : ℤ
  rcCommandThrottle : ℤ
  rcCommandRoll : ℤ
  rcCommandPitch : ℤ
  rcCommandYaw : ℤ
  rcCommandAdjustedThrottle : ℤ
  altholdThrottleFilterState : ℚ
  prepareForTakeoffOnReset : Bool
  previousTimeUpdate : ℕ
  previousTimePositionUpdate : ℕ
  emergPreviousTimeUpdate : ℕ
  emergPreviousTimePositionUpdate : ℕ

/-- Modelled from the spec: `updateAltitudeTargetFromClimbRate`
(navigation_rewrite.c, not among the provided sources) belongs to the external
navigation FSM interface; it moves the altitude target so that the
position-to-velocity P controller yields the requested climb rate (the same
pattern part_000 documents for the RC position override). The surface-target
mode argument only affects surface bookkeeping not embedded here. -/
def updateAltitudeTargetFromClimbRate (s : AltState) (climbRate : ℚ) : AltState :=
  { s with desiredPosZ := s.actualPosZ + climbRate / s.posZkP }

/-- `resetMulticopterAltitudeController` from part_000. -/
def resetMulticopterAltitudeController (s : AltState) : AltState :=
  let s1 := { s with
      pidsVelZ := navPidReset s.pidsVelZ
      pidsSurface := navPidReset s.pidsSurface
      altholdThrottleFilterState := filterResetPt1 0
      desiredVelZ := s.actualVelZ
      rcAdjustmentThrottle := 0 }
  if s1.prepareForTakeoffOnReset then
    { s1 with
        pidsVelZ := { s1.pidsVelZ with integrator := -500 }
        prepareForTakeoffOnReset := false }
  else s1

/-- `updateSurfaceTrackingAltitudeSetpoint` from part_000: with terrain follow
enabled and a surface target, either run the surface PID (output clamped to
[-5, +35]) onto the altitude target, or, without a valid surface reading,
synthesize a -20 cm/s descent through the climb-rate helper. -/
def updateSurfaceTrackingAltitudeSetpoint (s : AltState) (deltaMicros : ℕ) : AltState :=
  if s.isTerrainFollowEnabled ∧ 0 ≤ s.desiredSurface then
    if 0 ≤ s.actualSurface ∧ s.hasValidSurfaceSensor then
      let r := navPidApply2 s.desiredSurface s.actualSurface (us2s deltaMicros) s.pidsSurface (-5) 35
      { s with pidsSurface := r.2, desiredPosZ := s.actualPosZ + r.1 }
    else updateAltitudeTargetFromClimbRate s (-20)
  else s

/-- `updateAltitudeVelocityController_MC` from part_000: altitude error times
kP, hard-limited to 2000 cm/s, slew-limited by 250 cm/s^2 against the previous
desired vertical velocity. -/
def updateAltitudeVelocityController_MC (s : AltState) (deltaMicros : ℕ) : AltState :=
  let altitudeError := s.desiredPosZ - s.actualPosZ
  let targetVel := constrainf (altitudeError * s.posZkP) (-2000) 2000
  let maxVelDifference := us2s deltaMicros * 250
  { s with
      desiredVelZ := constrainf targetVel (s.desiredVelZ - maxVelDifference)
        (s.desiredVelZ + maxVelDifference) }

/-- `updateAltitudeThrottleController_MC` from part_000: velocity PID with
output bounds [minthrottle - hover, maxthrottle - hover], PT1 filtered, then
re-clamped to the same bounds. The two `int16_t` stores into
`rcAdjustment[THROTTLE]` truncate. -/
def updateAltitudeThrottleController_MC (env : NavEnv) (s : AltState) (deltaMicros : ℕ) :
    AltState :=
  let thrAdjustmentMin := env.esc.minthrottle - env.nav.mc_hover_throttle
  let thrAdjustmentMax := env.esc.maxthrottle - env.nav.mc_hover_throttle
  let r := navPidApply2 s.desiredVelZ s.actualVelZ (us2s deltaMicros) s.pidsVelZ
    (thrAdjustmentMin : ℚ) (thrAdjustmentMax : ℚ)
  let adj0 : ℤ := ratTrunc r.1
  let filtered := filterApplyPt1 (adj0 : ℚ) s.altholdThrottleFilterState
    NAV_THROTTLE_CUTOFF_FREQENCY_HZ (us2s deltaMicros)
  { s with
      pidsVelZ := r.2
      altholdThrottleFilterState := filtered
      rcAdjustmentThrottle := constrain (ratTrunc filtered) thrAdjustmentMin thrAdjustmentMax }

/-- The `verticalPositionDataNew` block of `applyMulticopterAltitudeController`:
on fresh vertical data run surface tracking, the position-to-velocity stage
and the velocity-to-throttle stage if the position update is recent enough,
else reset; then mark the data consumed. -/
def altCtlProcessVerticalData (env : NavEnv) (s : AltState) (currentTime : ℕ) : AltState :=
  if s.verticalPositionDataNew then
    let deltaMicrosPositionUpdate := u32sub currentTime s.previousTimePositionUpdate
    let s1 := { s with previousTimePositionUpdate := currentTime }
    let s2 :=
      if deltaMicrosPositionUpdate < hz2us MIN_POSITION_UPDATE_RATE_HZ then
        updateAltitudeThrottleController_MC env
          (updateAltitudeVelocityController_MC
            (updateSurfaceTrackingAltitudeSetpoint s1 deltaMicrosPositionUpdate)
            deltaMicrosPositionUpdate)
          deltaMicrosPositionUpdate
      else resetMulticopterAltitudeController s1
    { s2 with verticalPositionDataConsumed := true }
  else s

/-- The final throttle publication shared by the altitude and (sensor-valid)
emergency controllers: rcCommand[THROTTLE] = constrain(hover + adjustment,
minthrottle, maxthrottle), also latched into `rcCommandAdjustedThrottle`. -/
def altCtlPublishThrottle (env : NavEnv) (s : AltState) : AltState :=
  let thr := constrain (env.nav.mc_hover_throttle + s.rcAdjustmentThrottle)
    env.esc.minthrottle env.esc.maxthrottle
  { s with rcCommandThrottle := thr, rcCommandAdjustedThrottle := thr }

/-- `applyMulticopterAltitudeController` from part_000. -/
def applyMulticopterAltitudeController (env : NavEnv) (s : AltState) (currentTime : ℕ) :
    AltState :=
  if u32sub currentTime s.previousTimeUpdate > hz2us MIN_POSITION_UPDATE_RATE_HZ then
    resetMulticopterAltitudeController
      { s with previousTimeUpdate := currentTime, previousTimePositionUpdate := currentTime }
  else
    altCtlPublishThrottle env
      (altCtlProcessVerticalData env { s with previousTimeUpdate := currentTime } currentTime)

/-- The `verticalPositionDataNew` block of the emergency landing controller:
like the altitude controller's, but the altitude target is driven by the
constant descent rate -emerg_descent_rate. -/
def emergCtlProcessVerticalData (env : NavEnv) (s : AltState) (currentTime : ℕ) : AltState :=
  if s.verticalPositionDataNew then
    let deltaMicrosPositionUpdate := u32sub currentTime s.emergPreviousTimePositionUpdate
    let s1 := { s with emergPreviousTimePositionUpdate := currentTime }
    let s2 :=
      if deltaMicrosPositionUpdate < hz2us MIN_POSITION_UPDATE_RATE_HZ then
        updateAltitudeThrottleController_MC env
          (updateAltitudeVelocityController_MC
            (updateAltitudeTargetFromClimbRate s1 (-1 * env.nav.emerg_descent_rate))
            deltaMicrosPositionUpdate)
          deltaMicrosPositionUpdate
      else resetMulticopterAltitudeController s1
    { s2 with verticalPositionDataConsumed := true }
  else s

/-- `applyMulticopterEmergencyLandingController` from part_000: zero the
roll/pitch/yaw sticks; with a valid altitude sensor run the stale-guarded
altitude cascade at the emergency descent rate and publish the clamped
throttle; without one, write the failsafe throttle, or minthrottle when no
failsafe config is active. -/
def applyMulticopterEmergencyLandingController (env : NavEnv) (s : AltState) (currentTime : ℕ) :
    AltState :=
  let s0 := { s with
      emergPreviousTimeUpdate := currentTime
      rcCommandRoll := 0
      rcCommandPitch := 0
      rcCommandYaw := 0 }
  if s.hasValidAltitudeSensor then
    if u32sub currentTime s.emergPreviousTimeUpdate > hz2us MIN_POSITION_UPDATE_RATE_HZ then
      resetMulticopterAltitudeController { s0 with emergPreviousTimePositionUpdate := currentTime }
    else
      altCtlPublishThrottle env (emergCtlProcessVerticalData env s0 currentTime)
  else
    match env.failsafe with
    | some fc => { s0 with rcCommandThrottle := fc.failsafe_throttle }
    | none => { s0 with rcCommandThrottle := env.esc.minthrottle }

/-- Per-call inputs of `isMulticopterLandingDetected` read from `posControl`
and the config. -/
structure LandDetectorEnv where
  actualVelZ : ℚ
  actualVelXY : ℚ
  actualSurface : ℚ
  actualSurfaceMin : ℚ
  hasValidSurfaceSensor : Bool
  rcCommandAdjustedThrottle : ℤ
  mc_min_fly_throttle : ℤ

/-- Constant `LAND_DETECTOR_TRIGGER_TIME_MS`. Modelled from the spec: the
defining header is not among the provided sources; the spec names the constant
without a value. This firmware family uses 2000 ms; no theorem below depends
on the numeric value. -/
def LAND_DETECTOR_TRIGGER_TIME_MS : ℕ := 2000

/-- `isMulticopterLandingDetected` from part_000. Returns (detected, new
landing timer, new sticky velocity flag). The C condition
`hasHadSomeVelocity && minimalThrust && ...` tests the POINTER
`hasHadSomeVelocity`, which callers always pass non-null, not the pointed-to
flag; the embedding reproduces that: the first conjunct is the constant
`true` and the sticky flag value is never consulted. -/
def isMulticopterLandingDetected (env : LandDetectorEnv) (currentTime : ℕ)
    (landingTimer : ℕ) (hasHadSomeVelocity : Bool) : Bool × ℕ × Bool :=
  let hasHad := if ¬hasHadSomeVelocity ∧ env.actualVelZ < -25 then true else hasHadSomeVelocity
  let verticalMovement : Bool := decide (|env.actualVelZ| > 25)
  let horizontalMovement : Bool := decide (env.actualVelXY > 100)
  let minimalThrust : Bool := decide (env.rcCommandAdjustedThrottle < env.mc_min_fly_throttle)
  let hasHadPointerNonNull : Bool := true
  let possible0 : Bool :=
    hasHadPointerNonNull && minimalThrust && !verticalMovement && !horizontalMovement
  let possibleLandingDetected : Bool :=
    if env.hasValidSurfaceSensor ∧ 0 ≤ env.actualSurface ∧ 0 ≤ env.actualSurfaceMin then
      possible0 && decide (env.actualSurface ≤ env.actualSurfaceMin + 5)
    else possible0
  if !possibleLandingDetected then (false, currentTime, hasHad)
  else (decide (u32sub currentTime landingTimer > LAND_DETECTOR_TRIGGER_TIME_MS * 1000),
    landingTimer, hasHad)

/-! ### Facts about the clamp and truncation helpers -/

theorem constrain_mem (v low high : ℤ) (h : low ≤ high) :
    low ≤ constrain v low high ∧ constrain v low high ≤ high := by
  unfold constrain
  split_ifs <;> omega

theorem constrainf_mem (v low high : ℚ) (h : low ≤ high) :
    low ≤ constrainf v low high ∧ constrainf v low high ≤ high := by
  unfold constrainf
  split_ifs <;> constructor <;> linarith

theorem ratTrunc_intCast (x : ℤ) : ratTrunc (x : ℚ) = x := by
  unfold ratTrunc
  split
  · exact Int.floor_intCast x
  · exact Int.ceil_intCast x

theorem abs_ratTrunc_le {q : ℚ} {B : ℤ} (h : |q| ≤ (B : ℚ)) : |ratTrunc q| ≤ B := by
  rw [abs_le] at h
  rw [abs_le]
  unfold ratTrunc
  split
  · refine ⟨Int.le_floor.mpr (by exact_mod_cast h.1), ?_⟩
    have h2 := Int.floor_le_floor h.2
    simpa using h2
  · refine ⟨?_, Int.ceil_le.mpr (by exact_mod_cast h.2)⟩
    have h1 : ((-B : ℤ) : ℚ) ≤ q := by exact_mod_cast h.1
    have h2 := Int.ceil_le_ceil h1
    rwa [Int.ceil_intCast] at h2

theorem floorHalf : ⌊(1 / 2 : ℚ)⌋ = 0 := by
  rw [Int.floor_eq_iff]
  norm_num

theorem ceilHalf : ⌈(1 / 2 : ℚ)⌉ = 1 := by
  rw [Int.ceil_eq_iff]
  norm_num

/-! ### The claims -/

/-- C2: on every rate-PID invocation, the value stored into axisPID[axis] is
the preliminary output (P + D) * attenuation + I clamped to
[-PID_MAX_OUTPUT, +PID_MAX_OUTPUT], hence at most 1000 in absolute value. -/
theorem c2_axisPID_bounded (pp : PidProfile) (ctx : RateCtx) (axis : Fin 3) (ps : PidState) :
    (pidApplyRateController pp ctx axis ps).2 =
      ratTrunc (constrainf (pidRateNewOutput pp ctx axis ps) (-PID_MAX_OUTPUT) PID_MAX_OUTPUT) ∧
    |(pidApplyRateController pp ctx axis ps).2| ≤ 1000 := by
  refine ⟨rfl, ?_⟩
  apply abs_ratTrunc_le
  have h := constrainf_mem (pidRateNewOutput pp ctx axis ps) (-PID_MAX_OUTPUT) PID_MAX_OUTPUT
    (by norm_num [PID_MAX_OUTPUT])
  rw [abs_le]
  unfold PID_MAX_OUTPUT at h ⊢
  push_cast
  exact ⟨by linarith [h.1], h.2⟩

/-- C3: on every rate-PID step the integrator is first updated by exactly
I += rateError kI dT + (uLim - u) kT dT (the value `pidRateIntegratorNext`),
then clamped to the +-errorGyroIfLimit envelope when ANTI_WINDUP or
motorLimitReached holds, and otherwise the envelope becomes |I|; the envelope
stays nonnegative. -/
theorem c3_integrator_update (pp : PidProfile) (ctx : RateCtx) (axis : Fin 3) (ps : PidState)
    (h : 0 ≤ ps.errorGyroIfLimit) :
    (pidApplyRateController pp ctx axis ps).1.errorGyroIf =
      (if ctx.stateAntiWindup || ctx.motorLimitReached then
        constrainf (pidRateIntegratorNext pp ctx axis ps) (-ps.errorGyroIfLimit)
          ps.errorGyroIfLimit
      else pidRateIntegratorNext pp ctx axis ps) ∧
    (pidApplyRateController pp ctx axis ps).1.errorGyroIfLimit =
      (if ctx.stateAntiWindup || ctx.motorLimitReached then ps.errorGyroIfLimit
       else |pidRateIntegratorNext pp ctx axis ps|) ∧
    0 ≤ (pidApplyRateController pp ctx axis ps).1.errorGyroIfLimit := by
  refine ⟨rfl, rfl, ?_⟩
  show 0 ≤ (if ctx.stateAntiWindup || ctx.motorLimitReached then ps.errorGyroIfLimit
       else |pidRateIntegratorNext pp ctx axis ps|)
  split
  · exact h
  · exact abs_nonneg _

/-- Concrete instantiation of `c3_integrator_update`. -/
theorem c3_integrator_update_witness :
    (0 : ℚ) ≤ (⟨1, 1, 0, 0, 0, 0, ⟨0, 0, 0, 0, 0⟩, 0, 0, 0, 0, 0, 0⟩ : PidState).errorGyroIfLimit ∧
    0 ≤ (pidApplyRateController ⟨fun _ => 40, fun _ => 10, fun _ => 0, 0, 0, 0, 0⟩
        ⟨4, false, false, false, 1 / 100⟩ 0
        ⟨1, 1, 0, 0, 0, 0, ⟨0, 0, 0, 0, 0⟩, 0, 0, 0, 0, 0, 0⟩).1.errorGyroIfLimit :=
  ⟨le_refl 0,
    (c3_integrator_update ⟨fun _ => 40, fun _ => 10, fun _ => 0, 0, 0, 0, 0⟩
      ⟨4, false, false, false, 1 / 100⟩ 0
      ⟨1, 1, 0, 0, 0, 0, ⟨0, 0, 0, 0, 0⟩, 0, 0, 0, 0, 0, 0⟩ (le_refl 0)).2.2⟩

/-- C5 counterexample: the raw mag-hold error 180 (yaw 1800 deci-degrees,
target heading 0) is of the form e + 360 n with e = 180 and n = 0, yet the
controller's internal error is -180, which is outside (-180, +180] and is not
equal to e. -/
theorem c5_wrap_boundary_counterexample :
    pidMagHoldError 1800 0 = -180 ∧
    ¬ (-180 < pidMagHoldError 1800 0 ∧ pidMagHoldError 1800 0 ≤ 180 ∧
        pidMagHoldError 1800 0 = 180) := by
  constructor
  · decide
  · decide

/-- C5 amended: for every attainable raw error (current yaw in [0, 3599]
deci-degrees, target heading in [0, 359] degrees, so the raw degree error lies
in [-359, +359]), the internal mag-hold error lies in the half-open interval
[-180, +180) and is congruent to the raw error modulo 360. -/
theorem c5_magHold_error_wrap (yawDeciDegrees target : ℤ)
    (h1 : 0 ≤ yawDeciDegrees) (h2 : yawDeciDegrees ≤ 3599)
    (h3 : 0 ≤ target) (h4 : target ≤ 359) :
    -180 ≤ pidMagHoldError yawDeciDegrees target ∧
    pidMagHoldError yawDeciDegrees target ≤ 179 ∧
    (DECIDEGREES_TO_DEGREES yawDeciDegrees - target -
      pidMagHoldError yawDeciDegrees target) % 360 = 0 := by
  have hdeg : DECIDEGREES_TO_DEGREES yawDeciDegrees = yawDeciDegrees / 10 := by
    unfold DECIDEGREES_TO_DEGREES
    exact Int.tdiv_eq_ediv h1 (by norm_num)
  simp only [pidMagHoldError, magHoldErrorWrap, hdeg]
  split_ifs <;> omega

/-- Concrete instantiation of `c5_magHold_error_wrap`: the spec's wraparound
scenario, yaw 1 degree (10 deci-degrees) with target 359 degrees. -/
theorem c5_magHold_error_wrap_witness :
    (0 : ℤ) ≤ 10 ∧ (10 : ℤ) ≤ 3599 ∧ (0 : ℤ) ≤ 359 ∧ (359 : ℤ) ≤ 359 ∧
    (-180 ≤ pidMagHoldError 10 359 ∧ pidMagHoldError 10 359 ≤ 179 ∧
      (DECIDEGREES_TO_DEGREES 10 - 359 - pidMagHoldError 10 359) % 360 = 0) :=
  ⟨by decide, by decide, by decide, by decide,
    c5_magHold_error_wrap 10 359 (by decide) (by decide) (by decide) (by decide)⟩

/-- C6 counterexample: with dynThrPID = 50 and tpa_breakpoint = 1500, at
throttle 1501 the code computes a TPA factor of exactly 1 (the inner integer
division truncates 50/500 to 0), which differs from the claimed real-number
formula 1 - (50/100) (1/500) = 999/1000. -/
theorem c6_tpa_exact_formula_counterexample :
    tpaFactorCalc ⟨50, 1500⟩ 1501 = 1 ∧
    tpaFactorCalc ⟨50, 1500⟩ 1501 ≠
      1 - ((50 : ℚ) / 100) * ((1501 - 1500) / (2000 - 1500)) := by
  have h : tpaFactorCalc ⟨50, 1500⟩ 1501 = 1 := by
    have ht : Int.tdiv (((50 : ℕ) : ℤ) * ((1501 : ℤ) - ((1500 : ℕ) : ℤ)))
        (2000 - ((1500 : ℕ) : ℤ)) = 0 := by decide
    simp only [tpaFactorCalc, ht]
    norm_num
  refine ⟨h, ?_⟩
  rw [h]
  norm_num

/-- C6 amended: the TPA factor equals 1 when dynThrPID is 0 or throttle is
below the breakpoint; for breakpoint <= throttle < 2000 it equals
(100 - (dynThrPID (throttle - breakpoint)) / (2000 - breakpoint)) / 100 with
the inner quotient truncated to an integer percent; for throttle >= 2000 (and
breakpoint at most 2000) it equals 1 - dynThrPID/100; the spec's concrete
examples at dynThrPID = 50, breakpoint = 1500 hold exactly. -/
theorem c6_tpa_characterization (crc : ControlRateConfig) (thr : ℤ) :
    ((crc.dynThrPID = 0 ∨ thr < (crc.tpa_breakpoint : ℤ)) → tpaFactorCalc crc thr = 1) ∧
    (crc.dynThrPID ≠ 0 → (crc.tpa_breakpoint : ℤ) ≤ thr → thr < 2000 →
      tpaFactorCalc crc thr =
        ((100 - Int.tdiv ((crc.dynThrPID : ℤ) * (thr - (crc.tpa_breakpoint : ℤ)))
          (2000 - (crc.tpa_breakpoint : ℤ)) : ℤ) : ℚ) / 100) ∧
    (crc.dynThrPID ≠ 0 → 2000 ≤ thr → (crc.tpa_breakpoint : ℤ) ≤ 2000 →
      tpaFactorCalc crc thr = 1 - (crc.dynThrPID : ℚ) / 100) ∧
    tpaFactorCalc ⟨50, 1500⟩ 1500 = 1 ∧
    tpaFactorCalc ⟨50, 1500⟩ 1750 = 3 / 4 ∧
    tpaFactorCalc ⟨50, 1500⟩ 2000 = 1 / 2 := by
  refine ⟨?_, ?_, ?_, ?_, ?_, ?_⟩
  · intro h
    rw [tpaFactorCalc, if_pos h]
  · intro h1 h2 h3
    rw [tpaFactorCalc, if_neg (by push_neg; exact ⟨h1, by omega⟩), if_pos h3]
  · intro h1 h2 h3
    rw [tpaFactorCalc, if_neg (by push_neg; exact ⟨h1, by omega⟩), if_neg (by omega)]
    push_cast
    ring
  · have ht : Int.tdiv (((50 : ℕ) : ℤ) * ((1500 : ℤ) - ((1500 : ℕ) : ℤ)))
        (2000 - ((1500 : ℕ) : ℤ)) = 0 := by decide
    simp only [tpaFactorCalc, ht]
    norm_num
  · have ht : Int.tdiv (((50 : ℕ) : ℤ) * ((1750 : ℤ) - ((1500 : ℕ) : ℤ)))
        (2000 - ((1500 : ℕ) : ℤ)) = 25 := by decide
    simp only [tpaFactorCalc, ht]
    norm_num
  · simp only [tpaFactorCalc]
    norm_num

/-- Concrete instantiation of `c6_tpa_characterization`: the middle branch at
dynThrPID = 50, breakpoint = 1500, throttle 1750. -/
theorem c6_tpa_characterization_witness :
    ((50 : ℕ) ≠ 0 ∧ ((1500 : ℕ) : ℤ) ≤ 1750 ∧ (1750 : ℤ) < 2000) ∧
    tpaFactorCalc ⟨50, 1500⟩ 1750 =
      ((100 - Int.tdiv (((50 : ℕ) : ℤ) * ((1750 : ℤ) - ((1500 : ℕ) : ℤ)))
        (2000 - ((1500 : ℕ) : ℤ)) : ℤ) : ℚ) / 100 :=
  ⟨⟨by decide, by decide, by decide⟩,
    (c6_tpa_characterization ⟨50, 1500⟩ 1750).2.1 (by decide) (by decide) (by decide)⟩

/-- C8 counterexample: with P8 = 40 and I8 = 10 (guard satisfied) but
dynThrPID = 100, breakpoint 1500 and throttle 2000, the TPA factor is 0, so
the TPA-scaled kP on the ROLL axis is 0 and the kD/kP divisor of the kT
computation is a division by zero. -/
theorem c8_tpa_zero_kills_kP :
    (⟨fun _ => 40, fun _ => 10, fun _ => 0, 0, 0, 0, 0⟩ : PidProfile).P8 (0 : Fin 3).val ≠ 0 ∧
    (⟨fun _ => 40, fun _ => 10, fun _ => 0, 0, 0, 0, 0⟩ : PidProfile).I8 (0 : Fin 3).val ≠ 0 ∧
    (updatePIDCoefficientsAxis ⟨fun _ => 40, fun _ => 10, fun _ => 0, 0, 0, 0, 0⟩
      ⟨100, 1500⟩ ⟨1100, 1900⟩ 2000 0).kP = 0 := by
  refine ⟨by decide, by decide, ?_⟩
  simp only [updatePIDCoefficientsAxis, tpaFactorCalc]
  norm_num

/-- C8 amended: the kT guard sets kT = 0 whenever P8 or I8 is zero on the
axis; and whenever the guard admits the computation, the kI divisor is
nonzero, and the effective (TPA-scaled) kP divisor is nonzero provided the
axis is YAW (which is not TPA-scaled) or the TPA factor is nonzero — the
counterexample shows the TPA factor can be 0, making the scaled kP zero. -/
theorem c8_kT_guard (pp : PidProfile) (crc : ControlRateConfig) (rx : RxConfig)
    (rcThrottle : ℤ) (axis : Fin 3) :
    ((pp.P8 axis.val = 0 ∨ pp.I8 axis.val = 0) →
      (updatePIDCoefficientsAxis pp crc rx rcThrottle axis).kT = 0) ∧
    (pp.P8 axis.val ≠ 0 → pp.I8 axis.val ≠ 0 →
      (axis.val = 2 ∨ tpaFactorCalc crc rcThrottle ≠ 0) →
      (updatePIDCoefficientsAxis pp crc rx rcThrottle axis).kP ≠ 0 ∧
      (updatePIDCoefficientsAxis pp crc rx rcThrottle axis).kI ≠ 0) := by
  constructor
  · intro h
    simp only [updatePIDCoefficientsAxis]
    rw [if_neg]
    tauto
  · intro hP hI hcase
    have hkP0 : ((pp.P8 axis.val : ℚ) / 40) ≠ 0 :=
      div_ne_zero (by exact_mod_cast hP) (by norm_num)
    constructor
    · simp only [updatePIDCoefficientsAxis]
      rcases hcase with h2 | htpa
      · rw [if_neg (by omega)]
        exact hkP0
      · by_cases hax : axis.val = 2
        · rw [if_neg (by omega)]
          exact hkP0
        · rw [if_pos hax]
          exact mul_ne_zero hkP0 htpa
    · simp only [updatePIDCoefficientsAxis]
      exact div_ne_zero (by exact_mod_cast hI) (by norm_num)

/-- Concrete instantiation of `c8_kT_guard`: ROLL axis with a nonzero TPA
factor (dynThrPID = 50, breakpoint 1500, throttle 1500). -/
theorem c8_kT_guard_witness :
    ((⟨fun _ => 40, fun _ => 10, fun _ => 0, 0, 0, 0, 0⟩ : PidProfile).P8 (0 : Fin 3).val ≠ 0 ∧
      (⟨fun _ => 40, fun _ => 10, fun _ => 0, 0, 0, 0, 0⟩ : PidProfile).I8 (0 : Fin 3).val ≠ 0 ∧
      tpaFactorCalc ⟨50, 1500⟩ 1500 ≠ 0) ∧
    ((updatePIDCoefficientsAxis ⟨fun _ => 40, fun _ => 10, fun _ => 0, 0, 0, 0, 0⟩
        ⟨50, 1500⟩ ⟨1100, 1900⟩ 1500 0).kP ≠ 0 ∧
      (updatePIDCoefficientsAxis ⟨fun _ => 40, fun _ => 10, fun _ => 0, 0, 0, 0, 0⟩
        ⟨50, 1500⟩ ⟨1100, 1900⟩ 1500 0).kI ≠ 0) := by
  have htpa : tpaFactorCalc ⟨50, 1500⟩ 1500 ≠ 0 := by
    have ht : Int.tdiv (((50 : ℕ) : ℤ) * ((1500 : ℤ) - ((1500 : ℕ) : ℤ)))
        (2000 - ((1500 : ℕ) : ℤ)) = 0 := by decide
    simp only [tpaFactorCalc, ht]
    norm_num
  exact ⟨⟨by decide, by decide, htpa⟩,
    (c8_kT_guard ⟨fun _ => 40, fun _ => 10, fun _ => 0, 0, 0, 0, 0⟩
      ⟨50, 1500⟩ ⟨1100, 1900⟩ 1500 0).2 (by decide) (by decide) (Or.inr htpa)⟩

/-- C9: converting an integer deci-degree angle to an RC command and back
returns the angle up to the truncation of the odd half, a discrepancy of at
most one deci-degree (and exactly zero for even angles). The bound on x keeps
the intermediate RC command representable in the C int16 return type. -/
theorem c9_angle_roundtrip (x : ℤ) (hx : |x| ≤ 65534) :
    |pidRcCommandToAngle (pidAngleToRcCommand (x : ℚ)) - (x : ℚ)| ≤ 1 := by
  rcases Int.even_or_odd x with ⟨k, hk⟩ | ⟨k, hk⟩
  · subst hk
    have h2 : ((k + k : ℤ) : ℚ) / 2 = ((k : ℤ) : ℚ) := by push_cast; ring
    rw [pidAngleToRcCommand, h2, ratTrunc_intCast, pidRcCommandToAngle]
    push_cast
    rw [abs_le]
    constructor <;> linarith
  · subst hk
    have h2 : ((2 * k + 1 : ℤ) : ℚ) / 2 = (k : ℚ) + 1 / 2 := by push_cast; ring
    rw [pidAngleToRcCommand, h2]
    rcases le_or_lt 0 k with hk0 | hk0
    · have hq : (0 : ℚ) ≤ (k : ℚ) + 1 / 2 := by
        have hc : (0 : ℚ) ≤ (k : ℚ) := by exact_mod_cast hk0
        linarith
      have htr : ratTrunc ((k : ℚ) + 1 / 2) = k := by
        rw [ratTrunc, if_pos hq, Int.floor_int_add, floorHalf, add_zero]
      rw [htr, pidRcCommandToAngle]
      push_cast
      rw [abs_le]
      constructor <;> linarith
    · have hk1 : (k : ℚ) ≤ -1 := by
        have hc : k ≤ (-1 : ℤ) := by omega
        exact_mod_cast hc
      have hq : ¬ (0 : ℚ) ≤ (k : ℚ) + 1 / 2 := by linarith
      have htr : ratTrunc ((k : ℚ) + 1 / 2) = k + 1 := by
        rw [ratTrunc, if_neg hq, add_comm, Int.ceil_add_int, ceilHalf, add_comm]
      rw [htr, pidRcCommandToAngle]
      push_cast
      rw [abs_le]
      constructor <;> linarith

/-- Concrete instantiation of `c9_angle_roundtrip` at 7 deci-degrees. -/
theorem c9_angle_roundtrip_witness :
    |(7 : ℤ)| ≤ 65534 ∧
    |pidRcCommandToAngle (pidAngleToRcCommand ((7 : ℤ) : ℚ)) - ((7 : ℤ) : ℚ)| ≤ 1 :=
  ⟨by decide, c9_angle_roundtrip 7 (by decide)⟩

/-- A zeroed outer-loop PID object, used by the concrete instantiations. -/
def zeroNavPid : NavPid := ⟨0, 0, 0, 0, 0, 0⟩

/-- A concrete quiescent controller state used by the instantiations below:
all estimator values and adjustments zero, all flags clear, unit vertical
position P gain, all timestamps zero. -/
def baseAltState : AltState :=
  ⟨0, 0, 0, 0, 0, 0, false, false, false, false, false,
    zeroNavPid, zeroNavPid, 1, 0, 0, 0, 0, 0, 0, 0, false, 0, 0, 0, 0⟩

/-- A concrete configuration used by the instantiations below: throttle range
[1150, 1850], hover throttle 1400, minimum fly throttle 1300, emergency
descent rate 50 cm/s, no active failsafe config. -/
def envW : NavEnv := ⟨⟨1150, 1850⟩, ⟨1400, 1300, 50⟩, none⟩

/-- C1 counterexample: an emergency-landing invocation with the altitude
sensor invalid and an active failsafe config whose failsafe_throttle is 1000
publishes rcCommand[THROTTLE] = 1000, below minThrottle = 1150, violating the
claimed bound. -/
theorem c1_failsafe_throttle_unbounded :
    (applyMulticopterEmergencyLandingController ⟨⟨1150, 1850⟩, ⟨1400, 1300, 50⟩, some ⟨1000⟩⟩
      baseAltState 5000).rcCommandThrottle = 1000 ∧
    ¬ ((1150 : ℤ) ≤ (applyMulticopterEmergencyLandingController
        ⟨⟨1150, 1850⟩, ⟨1400, 1300, 50⟩, some ⟨1000⟩⟩ baseAltState 5000).rcCommandThrottle) := by
  constructor
  · decide
  · decide

/-- C1 amended: every altitude-controller invocation that passes the stale
guard publishes rcCommand[THROTTLE] within [minThrottle, maxThrottle] (given
minThrottle <= maxThrottle), and so does every emergency-landing invocation
with a valid altitude sensor that passes its stale guard; with the altitude
sensor invalid the emergency controller writes the failsafe throttle (or
minThrottle without a failsafe config) unclamped, so the bound then holds
only if the configured failsafe throttle itself lies within the range. -/
theorem c1_published_throttle_bounds (env : NavEnv) (s : AltState) (t : ℕ)
    (hmm : env.esc.minthrottle ≤ env.esc.maxthrottle) :
    (u32sub t s.previousTimeUpdate ≤ hz2us MIN_POSITION_UPDATE_RATE_HZ →
      env.esc.minthrottle ≤ (applyMulticopterAltitudeController env s t).rcCommandThrottle ∧
      (applyMulticopterAltitudeController env s t).rcCommandThrottle ≤ env.esc.maxthrottle) ∧
    (s.hasValidAltitudeSensor = true →
      u32sub t s.emergPreviousTimeUpdate ≤ hz2us MIN_POSITION_UPDATE_RATE_HZ →
      env.esc.minthrottle ≤
        (applyMulticopterEmergencyLandingController env s t).rcCommandThrottle ∧
      (applyMulticopterEmergencyLandingController env s t).rcCommandThrottle ≤
        env.esc.maxthrottle) ∧
    (s.hasValidAltitudeSensor = false →
      (applyMulticopterEmergencyLandingController env s t).rcCommandThrottle =
        (match env.failsafe with
          | some fc => fc.failsafe_throttle
          | none => env.esc.minthrottle)) := by
  refine ⟨?_, ?_, ?_⟩
  · intro hns
    rw [applyMulticopterAltitudeController, if_neg (by omega)]
    exact constrain_mem _ _ _ hmm
  · intro hsens hns
    simp only [applyMulticopterEmergencyLandingController]
    rw [if_pos hsens, if_neg (by omega)]
    exact constrain_mem _ _ _ hmm
  · intro hsens
    simp only [applyMulticopterEmergencyLandingController]
    rw [if_neg (by simp [hsens])]
    cases henv : env.failsafe with
    | none => simp
    | some fc => simp

/-- Concrete instantiation of `c1_published_throttle_bounds`: a quiescent
non-stale altitude-controller invocation publishes within [1150, 1850]. -/
theorem c1_published_throttle_bounds_witness :
    envW.esc.minthrottle ≤ envW.esc.maxthrottle ∧
    u32sub 0 baseAltState.previousTimeUpdate ≤ hz2us MIN_POSITION_UPDATE_RATE_HZ ∧
    (envW.esc.minthrottle ≤
        (applyMulticopterAltitudeController envW baseAltState 0).rcCommandThrottle ∧
      (applyMulticopterAltitudeController envW baseAltState 0).rcCommandThrottle ≤
        envW.esc.maxthrottle) :=
  ⟨by decide, by decide,
    (c1_published_throttle_bounds envW baseAltState 0 (by decide)).1 (by decide)⟩

/-- C7: a stale altitude-controller tick (delta above the
MIN_POSITION_UPDATE_RATE_HZ threshold) resets and skips: the Z-velocity and
surface PID dynamic state clear, the throttle low-pass state resets to zero,
desired vertical velocity is seeded from the actual one, the throttle
adjustment becomes zero, the previously published throttle command is left
unchanged, and with a pending low-throttle arming the Z-velocity integrator
is seeded to -500 (the pending flag being consumed). -/
theorem c7_stale_reset (env : NavEnv) (s : AltState) (t : ℕ)
    (hstale : u32sub t s.previousTimeUpdate > hz2us MIN_POSITION_UPDATE_RATE_HZ) :
    (applyMulticopterAltitudeController env s t).pidsVelZ.integrator =
      (if s.prepareForTakeoffOnReset then -500 else 0) ∧
    (applyMulticopterAltitudeController env s t).pidsVelZ.lastInput = 0 ∧
    (applyMulticopterAltitudeController env s t).pidsSurface.integrator = 0 ∧
    (applyMulticopterAltitudeController env s t).pidsSurface.lastInput = 0 ∧
    (applyMulticopterAltitudeController env s t).altholdThrottleFilterState = 0 ∧
    (applyMulticopterAltitudeController env s t).desiredVelZ = s.actualVelZ ∧
    (applyMulticopterAltitudeController env s t).rcAdjustmentThrottle = 0 ∧
    (applyMulticopterAltitudeController env s t).rcCommandThrottle = s.rcCommandThrottle ∧
    (applyMulticopterAltitudeController env s t).prepareForTakeoffOnReset = false := by
  rw [applyMulticopterAltitudeController, if_pos hstale]
  by_cases hp : s.prepareForTakeoffOnReset <;>
    simp [resetMulticopterAltitudeController, navPidReset, filterResetPt1, hp]

/-- Concrete instantiation of `c7_stale_reset` after a 300 ms gap. -/
theorem c7_stale_reset_witness :
    u32sub 300000 baseAltState.previousTimeUpdate > hz2us MIN_POSITION_UPDATE_RATE_HZ ∧
    ((applyMulticopterAltitudeController envW baseAltState 300000).pidsVelZ.integrator =
        (if baseAltState.prepareForTakeoffOnReset then -500 else 0) ∧
      (applyMulticopterAltitudeController envW baseAltState 300000).pidsVelZ.lastInput = 0 ∧
      (applyMulticopterAltitudeController envW baseAltState 300000).pidsSurface.integrator = 0 ∧
      (applyMulticopterAltitudeController envW baseAltState 300000).pidsSurface.lastInput = 0 ∧
      (applyMulticopterAltitudeController envW baseAltState
          300000).altholdThrottleFilterState = 0 ∧
      (applyMulticopterAltitudeController envW baseAltState 300000).desiredVelZ =
        baseAltState.actualVelZ ∧
      (applyMulticopterAltitudeController envW baseAltState 300000).rcAdjustmentThrottle = 0 ∧
      (applyMulticopterAltitudeController envW baseAltState 300000).rcCommandThrottle =
        baseAltState.rcCommandThrottle ∧
      (applyMulticopterAltitudeController envW baseAltState 300000).prepareForTakeoffOnReset =
        false) :=
  ⟨by decide, c7_stale_reset envW baseAltState 300000 (by decide)⟩

/-- C10: on a stale tick the altitude controller resets and returns without
writing rcCommand[THROTTLE]; on every non-stale invocation it writes
rcCommand[THROTTLE] = constrain(hoverThrottle + rcAdjustment[THROTTLE]), and
when no fresh vertical position data arrived the adjustment used is exactly
the previously stored one. -/
theorem c10_throttle_write_frame (env : NavEnv) (s : AltState) (t : ℕ) :
    (u32sub t s.previousTimeUpdate > hz2us MIN_POSITION_UPDATE_RATE_HZ →
      (applyMulticopterAltitudeController env s t).rcCommandThrottle = s.rcCommandThrottle) ∧
    (u32sub t s.previousTimeUpdate ≤ hz2us MIN_POSITION_UPDATE_RATE_HZ →
      (applyMulticopterAltitudeController env s t).rcCommandThrottle =
        constrain (env.nav.mc_hover_throttle +
            (applyMulticopterAltitudeController env s t).rcAdjustmentThrottle)
          env.esc.minthrottle env.esc.maxthrottle) ∧
    (u32sub t s.previousTimeUpdate ≤ hz2us MIN_POSITION_UPDATE_RATE_HZ →
      s.verticalPositionDataNew = false →
      (applyMulticopterAltitudeController env s t).rcCommandThrottle =
        constrain (env.nav.mc_hover_throttle + s.rcAdjustmentThrottle)
          env.esc.minthrottle env.esc.maxthrottle) := by
  refine ⟨?_, ?_, ?_⟩
  · intro hstale
    rw [applyMulticopterAltitudeController, if_pos hstale]
    by_cases hp : s.prepareForTakeoffOnReset <;>
      simp [resetMulticopterAltitudeController, navPidReset, filterResetPt1, hp]
  · intro hns
    rw [applyMulticopterAltitudeController, if_neg (by omega)]
    rfl
  · intro hns hnew
    rw [applyMulticopterAltitudeController, if_neg (by omega),
      altCtlProcessVerticalData, if_neg (by simp [hnew])]
    rfl

/-- Concrete instantiation of `c10_throttle_write_frame`: with no fresh
vertical data the published throttle is the clamp of hover plus the held
adjustment. -/
theorem c10_throttle_write_frame_witness :
    u32sub 0 baseAltState.previousTimeUpdate ≤ hz2us MIN_POSITION_UPDATE_RATE_HZ ∧
    baseAltState.verticalPositionDataNew = false ∧
    (applyMulticopterAltitudeController envW baseAltState 0).rcCommandThrottle =
      constrain (envW.nav.mc_hover_throttle + baseAltState.rcAdjustmentThrottle)
        envW.esc.minthrottle envW.esc.maxthrottle :=
  ⟨by decide, by decide,
    (c10_throttle_write_frame envW baseAltState 0).2.2 (by decide) (by decide)⟩

/-- C4: the land detector can report touchdown although the sticky
descent flag never became true. At this input the craft never descended
(vertical velocity is 0 throughout, the returned sticky flag is still false),
yet with low throttle, no horizontal motion and an expired timer the detector
returns true, because the C code tests the pointer `hasHadSomeVelocity`
instead of the pointed-to flag. -/
theorem c4_land_detector_ignores_velocity_flag :
    (isMulticopterLandingDetected ⟨0, 0, -1, -1, false, 1000, 1200⟩ 3000000 0 false).1 = true ∧
    (isMulticopterLandingDetected ⟨0, 0, -1, -1, false, 1000, 1200⟩ 3000000 0 false).2.2 = false := by
  constructor
  · decide
  · decide
